import Mathlib

/-!
Verification of the CityBike analytics pipeline (src/citybike).

Embedding conventions:
* NumPy 1-D float arrays are lists of rationals (`List ℚ`); every arithmetic
  operation the source performs (add, mul, div by a nonzero std, sqrt) is
  evaluated exactly, and where an equality claim compares two computations the
  embedding keeps the operation order of the source so that exact agreement
  mirrors bitwise float agreement.
* A NumPy call that raises `ValueError` (shape mismatch) is modelled as
  returning `none`; broadcasting of 1-D arrays follows NumPy shape rules:
  equal lengths act elementwise, a length-1 array is broadcast against the
  other, and any other pair of lengths is an error.
* `np.sqrt` is `Real.sqrt`, so std-based definitions live in `ℝ`.
-/

namespace CityBike

/-! ## numerical.py -/

/-- Function `calculate_fares` from src/citybike/numerical.py:
`fares = unlock_fee + per_minute * durations + per_km * distances`,
with NumPy 1-D broadcasting: elementwise on equal lengths, a length-1 array
broadcast against the other, `ValueError` (`none`) otherwise. -/
def calculate_fares (durations distances : List ℚ)
    (per_minute per_km : ℚ) (unlock_fee : ℚ) : Option (List ℚ) :=
  if durations.length = distances.length then
    some (List.zipWith (fun d x => unlock_fee + per_minute * d + per_km * x)
      durations distances)
  else if durations.length = 1 then
    some (distances.map (fun x => unlock_fee + per_minute * durations.head! + per_km * x))
  else if distances.length = 1 then
    some (durations.map (fun d => unlock_fee + per_minute * d + per_km * distances.head!))
  else
    none

/-- The mean `np.mean`: sum divided by length (on the empty list this is `0/0 = 0` in
`ℚ`; no claim depends on the empty case). -/
def listMean (xs : List ℚ) : ℚ := xs.sum / xs.length

/-- Population variance, `np.var`: mean of squared deviations from the mean. -/
def listVar (xs : List ℚ) : ℚ := listMean (xs.map (fun x => (x - listMean xs) ^ 2))

/-- Population standard deviation, `np.std`: square root of the variance. -/
noncomputable def listStd (xs : List ℚ) : ℝ := Real.sqrt (listVar xs)

open scoped Classical in
/-- Function `detect_outliers_zscore` from src/citybike/numerical.py: if the population
std is 0 return an all-false mask (no division is performed on that path),
otherwise flag the elements with `|(x - mean) / std| > threshold`. -/
noncomputable def detect_outliers_zscore (values : List ℚ) (threshold : ℚ) : List Bool :=
  if listStd values = 0 then
    values.map (fun _ => false)
  else
    values.map (fun x =>
      if |((x : ℝ) - (listMean values : ℝ)) / listStd values| > (threshold : ℝ)
      then true else false)

/-- Function `station_distance_matrix` from src/citybike/numerical.py: entry `(i, j)` is
`sqrt((lat_i - lat_j)^2 + (lon_i - lon_j)^2)`, built from the broadcast
pairwise differences of the two coordinate arrays (of common length `n`). -/
noncomputable def station_distance_matrix (n : ℕ) (latitudes longitudes : Fin n → ℝ) :
    Fin n → Fin n → ℝ :=
  fun i j =>
    Real.sqrt ((latitudes i - latitudes j) ^ 2 + (longitudes i - longitudes j) ^ 2)

/-! ## pricing.py -/

namespace CasualPricing

def UNLOCK_FEE : ℚ := 1
def PER_MINUTE : ℚ := 15 / 100
def PER_KM : ℚ := 10 / 100

/-- Method `CasualPricing.calculate_cost` from src/citybike/pricing.py. -/
def calculate_cost (duration_minutes distance_km : ℚ) : ℚ :=
  UNLOCK_FEE + PER_MINUTE * duration_minutes + PER_KM * distance_km

end CasualPricing

/-- The per-trip cost formula of `PricingStrategy.calculate_cost`
implementations (pricing.py), with the rates as explicit parameters:
`unlock_fee + per_minute * duration + per_km * distance`. -/
def per_trip_cost (unlock_fee per_minute per_km duration_minutes distance_km : ℚ) : ℚ :=
  unlock_fee + per_minute * duration_minutes + per_km * distance_km

/-! ## analyzer.py — BikeShareSystem.clean_data and the hour aggregation

The trips table is a list of rows. A raw CSV cell is an `Option String`
(`none` = missing / NaN). `pd.to_datetime(..., errors="coerce")` and
`pd.to_numeric(..., errors="coerce")` are modelled by arbitrary total parsers
`pdate : String → Option ℕ` (timestamps as minutes since an epoch, `none` =
NaT) and `pnum : String → Option ℚ` (`none` = NaN); every theorem below holds
for every such parser pair. -/

/-- One row of the raw trips table, restricted to the columns `clean_data`
reads or writes; the remaining columns pass through the pipeline unchanged
and are omitted. -/
structure RawTrip where
  trip_id : Option String
  user_type : Option String
  start_time : Option String
  end_time : Option String
  duration_minutes : Option String
  distance_km : Option String
  status : Option String
deriving DecidableEq, Repr

/-- A trips row after the coercions of steps 2–3 of `clean_data`. -/
structure ParsedTrip where
  trip_id : Option String
  user_type : Option String
  start_time : Option ℕ
  end_time : Option ℕ
  duration_minutes : Option ℚ
  distance_km : Option ℚ
  status : Option String
deriving DecidableEq, Repr

/-- Helper for `drop_duplicates(keep="first")`: drop a row whose key was
already seen in an earlier row. -/
def dedupOnAux {α β : Type*} (key : α → β) [DecidableEq β] :
    List β → List α → List α
  | _, [] => []
  | seen, a :: l =>
    if key a ∈ seen then dedupOnAux key seen l
    else a :: dedupOnAux key (key a :: seen) l

/-- Pandas `DataFrame.drop_duplicates(subset, keep="first")` on key `key`. -/
def dedupOn {α β : Type*} (key : α → β) [DecidableEq β] (l : List α) : List α :=
  dedupOnAux key [] l

/-- Step 1 of `clean_data`: `drop_duplicates(subset=["trip_id"])`. -/
def dedupTrips (rows : List RawTrip) : List RawTrip :=
  dedupOn (fun r => r.trip_id) rows

/-- Steps 2–3 of `clean_data` on one row: coerce the timestamp and numeric
cells, a missing or unparseable cell becoming null. -/
def parseRow (pdate : String → Option ℕ) (pnum : String → Option ℚ)
    (r : RawTrip) : ParsedTrip :=
  { trip_id := r.trip_id
    user_type := r.user_type
    start_time := r.start_time.bind pdate
    end_time := r.end_time.bind pdate
    duration_minutes := r.duration_minutes.bind pnum
    distance_km := r.distance_km.bind pnum
    status := r.status }

/-- Steps 2–3 of `clean_data` on the whole table. -/
def parseStep (pdate : String → Option ℕ) (pnum : String → Option ℚ)
    (rows : List RawTrip) : List ParsedTrip :=
  rows.map (parseRow pdate pnum)

/-- Pandas `Series.mean()` with pandas' default `skipna=True`: the mean of the
non-null values, itself null (NaN) when every value is null. -/
def colMean (col : List (Option ℚ)) : Option ℚ :=
  let vs := col.filterMap id
  if vs.length = 0 then none else some (vs.sum / vs.length)

/-- Pandas `Series.fillna(m)` on one cell; when the fill value `m` is itself NaN
(`none`), `fillna` leaves the null cell null. -/
def fillna (m : Option ℚ) (v : Option ℚ) : Option ℚ :=
  match v with
  | some x => some x
  | none => m

/-- Step 4 of `clean_data` on one row, given the two column fill values. -/
def fillRow (mdur mdist : Option ℚ) (r : ParsedTrip) : ParsedTrip :=
  { r with
    status := some (r.status.getD "unknown")
    duration_minutes := fillna mdur r.duration_minutes
    distance_km := fillna mdist r.distance_km }

/-- Step 4 of `clean_data`: fill null status with "unknown" and null
duration/distance with the respective column mean, computed over the rows
present at fill time — before the invalid-row filter of step 5. -/
def fillStep (rows : List ParsedTrip) : List ParsedTrip :=
  rows.map (fillRow (colMean (rows.map (fun r => r.duration_minutes)))
    (colMean (rows.map (fun r => r.distance_km))))

/-- The step-5 keep condition `end_time >= start_time`; a NaT on either side
compares false, so the row is dropped. -/
def validTimes (r : ParsedTrip) : Bool :=
  match r.start_time, r.end_time with
  | some s, some e => decide (s ≤ e)
  | _, _ => false

/-- Step 5 of `clean_data`: keep only rows with `end_time >= start_time`. -/
def filterStep (rows : List ParsedTrip) : List ParsedTrip :=
  rows.filter validTimes

/-- Step 6 of `clean_data` on one row: lower-case then strip `status` and
`user_type` (the pandas `.str` methods leave a null cell null). -/
def normRow (r : ParsedTrip) : ParsedTrip :=
  { r with
    status := r.status.map (fun s => s.toLower.trim)
    user_type := r.user_type.map (fun s => s.toLower.trim) }

/-- Step 6 of `clean_data` on the whole table. -/
def normStep (rows : List ParsedTrip) : List ParsedTrip :=
  rows.map normRow

/-- The cleaning pipeline of `BikeShareSystem.clean_data`, steps 1–6 in the
source's order (step 7 only writes the cleaned files back to disk). -/
def cleanTrips (pdate : String → Option ℕ) (pnum : String → Option ℚ)
    (rows : List RawTrip) : List ParsedTrip :=
  normStep (filterStep (fillStep (parseStep pdate pnum (dedupTrips rows))))

/-- Method `BikeShareSystem.clean_data` with its guard: invoked before `load_data`
(no trips table) it raises `RuntimeError("Call load_data() first")`, modelled
as `Except.error`; on any loaded table it runs the total cleaning pipeline. -/
def clean_data (pdate : String → Option ℕ) (pnum : String → Option ℚ)
    (trips : Option (List RawTrip)) : Except String (List ParsedTrip) :=
  match trips with
  | none => Except.error "Call load_data() first"
  | some rows => Except.ok (cleanTrips pdate pnum rows)

/-- The duration column as it stands at fill time (after dedup and coercion,
before the step-5 filter). -/
def durCol (pdate : String → Option ℕ) (pnum : String → Option ℚ)
    (rows : List RawTrip) : List (Option ℚ) :=
  (parseStep pdate pnum (dedupTrips rows)).map (fun r => r.duration_minutes)

/-- The distance column as it stands at fill time. -/
def distCol (pdate : String → Option ℕ) (pnum : String → Option ℚ)
    (rows : List RawTrip) : List (Option ℚ) :=
  (parseStep pdate pnum (dedupTrips rows)).map (fun r => r.distance_km)

/-- The hour of day of a minutes-since-epoch timestamp (`Timestamp.hour`). -/
def hourOf (t : ℕ) : ℕ := t / 60 % 24

/-- The hour column `df["start_time"].dt.hour`, as the list of its non-null
entries (a NaT start time yields a null hour, which `value_counts` drops). -/
def hoursOf (rows : List ParsedTrip) : List ℕ :=
  rows.filterMap (fun r => r.start_time.map hourOf)

/-- Method `BikeShareSystem.peak_usage_hours`: `value_counts()` over the hour column
followed by `sort_index()` — the distinct observed hours in ascending order,
each paired with its number of occurrences. -/
def peak_usage_hours (rows : List ParsedTrip) : List (ℕ × ℕ) :=
  (((hoursOf rows).dedup).insertionSort (· ≤ ·)).map
    (fun h => (h, (hoursOf rows).count h))

/-! ### Concrete tables for witnesses and counterexamples -/

/-- A date parser for the concrete instances: "T0" is minute 0, "T60" is
minute 60, anything else (for example "bad") fails to parse. -/
def pdate0 : String → Option ℕ :=
  fun s => if s = "T0" then some 0 else if s = "T60" then some 60 else none

/-- A numeric parser for the concrete instances. -/
def pnum0 : String → Option ℚ :=
  fun s =>
    if s = "10" then some 10
    else if s = "30" then some 30
    else if s = "5" then some 5
    else none

/-- A row with valid timestamps whose duration and distance cells are null. -/
def rowNullNums : RawTrip :=
  { trip_id := some "a", user_type := some "M", start_time := some "T0"
    end_time := some "T60", duration_minutes := none, distance_km := none
    status := none }

/-- A row with valid timestamps, null duration and distance 5. -/
def rowKept : RawTrip :=
  { trip_id := some "a", user_type := some "m", start_time := some "T0"
    end_time := some "T60", duration_minutes := none, distance_km := some "5"
    status := some "ok" }

/-- A row with an unparseable start time (step 5 drops it) and duration `d`. -/
def rowDropped (d : String) : RawTrip :=
  { trip_id := some "b", user_type := some "c", start_time := some "bad"
    end_time := some "T60", duration_minutes := some d, distance_km := none
    status := some "ok" }

/-- Two-row table: the kept null-duration row plus a dropped row with
duration 10. -/
def tableA : List RawTrip := [rowKept, rowDropped "10"]

/-- Table `tableA` with the dropped row's duration changed to 30 — the tables
differ only in a cell of a row that step 5 removes. -/
def tableB : List RawTrip := [rowKept, rowDropped "30"]

/-- Table whose first row has valid times and both numeric cells null, and
whose second row is dropped by step 5 but contributes duration 10 and
distance 5 to the fill means. -/
def tableC : List RawTrip :=
  [rowNullNums,
   { trip_id := some "b", user_type := some "c", start_time := some "bad"
     end_time := some "T60", duration_minutes := some "10"
     distance_km := some "5", status := some "ok" }]

end CityBike

namespace CityBike

/-- C4: on equal-length arrays, the bulk `calculate_fares` agrees element by
element with the per-trip `PricingStrategy.calculate_cost` formula at the same
rates, and in particular with `CasualPricing.calculate_cost` at CasualPricing's
constants. -/
theorem calculate_fares_matches_per_trip (ds ks : List ℚ)
    (h : ds.length = ks.length) (pm pk uf : ℚ) :
    calculate_fares ds ks pm pk uf
        = some (List.zipWith (fun d k => per_trip_cost uf pm pk d k) ds ks)
      ∧ calculate_fares ds ks CasualPricing.PER_MINUTE CasualPricing.PER_KM
          CasualPricing.UNLOCK_FEE
        = some (List.zipWith (fun d k => CasualPricing.calculate_cost d k) ds ks) := by
  constructor
  · simp [calculate_fares, h, per_trip_cost]
  · simp [calculate_fares, h, CasualPricing.calculate_cost]

theorem calculate_fares_matches_per_trip_witness :
    ([10, 20, 30] : List ℚ).length = ([2, 5, 8] : List ℚ).length
      ∧ (calculate_fares [10, 20, 30] [2, 5, 8] (15/100) (10/100) 1
          = some (List.zipWith (fun d k => per_trip_cost 1 (15/100) (10/100) d k)
              [10, 20, 30] [2, 5, 8])
        ∧ calculate_fares [10, 20, 30] [2, 5, 8] CasualPricing.PER_MINUTE
            CasualPricing.PER_KM CasualPricing.UNLOCK_FEE
          = some (List.zipWith (fun d k => CasualPricing.calculate_cost d k)
              [10, 20, 30] [2, 5, 8])) :=
  ⟨by decide, calculate_fares_matches_per_trip [10, 20, 30] [2, 5, 8] (by decide)
      (15/100) (10/100) 1⟩

/-- C5 counterexample: arrays of unequal lengths 1 and 2 do NOT signal a
shape-mismatch error — NumPy broadcasts the length-1 array and returns a full
result, so the claim as stated is false. -/
theorem calculate_fares_len_one_no_error :
    ([10] : List ℚ).length ≠ ([1, 2] : List ℚ).length
      ∧ calculate_fares [10] [1, 2] (15/100) (10/100) 1
          = some [1 + 15/100 * 10 + 10/100 * 1, 1 + 15/100 * 10 + 10/100 * 2] := by
  constructor
  · decide
  · rfl

/-- C5 (amended): `calculate_fares` signals a shape-mismatch error (no partial
result) exactly when the two array lengths differ and neither array has
length 1 (the NumPy broadcastable case). -/
theorem calculate_fares_shape_mismatch (ds ks : List ℚ)
    (hne : ds.length ≠ ks.length) (hd : ds.length ≠ 1) (hk : ks.length ≠ 1)
    (pm pk uf : ℚ) :
    calculate_fares ds ks pm pk uf = none := by
  simp [calculate_fares, hne, hd, hk]

theorem calculate_fares_shape_mismatch_witness :
    (([1, 2] : List ℚ).length ≠ ([1, 2, 3] : List ℚ).length
        ∧ ([1, 2] : List ℚ).length ≠ 1 ∧ ([1, 2, 3] : List ℚ).length ≠ 1)
      ∧ calculate_fares [1, 2] [1, 2, 3] (15/100) (10/100) 1 = none :=
  ⟨⟨by decide, by decide, by decide⟩,
    calculate_fares_shape_mismatch [1, 2] [1, 2, 3] (by decide) (by decide) (by decide)
      (15/100) (10/100) 1⟩

/-- C10: when one array has length 1 and the other has length greater than 1,
`calculate_fares` signals no error: the single value is broadcast against every
element of the longer array (in both argument orders), and the result has the
longer array's length. -/
theorem calculate_fares_broadcast (ds ks : List ℚ)
    (hd : ds.length = 1) (hk : 1 < ks.length) (pm pk uf : ℚ) :
    calculate_fares ds ks pm pk uf
        = some (ks.map (fun k => uf + pm * ds.head! + pk * k))
      ∧ calculate_fares ks ds pm pk uf
        = some (ks.map (fun k => uf + pm * k + pk * ds.head!))
      ∧ (calculate_fares ds ks pm pk uf).map List.length = some ks.length := by
  have hne : ¬ ds.length = ks.length := by omega
  have hne' : ¬ ks.length = ds.length := by omega
  have hk1 : ¬ ks.length = 1 := by omega
  have h1 : ¬ (1 = ks.length) := by omega
  refine ⟨?_, ?_, ?_⟩
  · simp [calculate_fares, hne, hd, h1]
  · simp [calculate_fares, hne', hk1, hd]
  · simp [calculate_fares, hne, hd, h1]

lemma listMean_replicate (n : ℕ) (c : ℚ) (hn : n ≠ 0) :
    listMean (List.replicate n c) = c := by
  have hc : (n : ℚ) ≠ 0 := Nat.cast_ne_zero.mpr hn
  simp [listMean, List.sum_replicate, nsmul_eq_mul]
  field_simp

lemma listVar_replicate (n : ℕ) (c : ℚ) : listVar (List.replicate n c) = 0 := by
  rcases Nat.eq_zero_or_pos n with h | h
  · subst h; simp [listVar, listMean]
  · have hn : n ≠ 0 := h.ne'
    rw [listVar, listMean_replicate n c hn, List.map_replicate]
    simpa using listMean_replicate n 0 hn

lemma listStd_replicate (n : ℕ) (c : ℚ) : listStd (List.replicate n c) = 0 := by
  rw [listStd, listVar_replicate]
  simp

/-- C6: whenever the population standard deviation of the input is exactly
zero, `detect_outliers_zscore` takes the guard branch — which performs no
division — and returns the all-false mask, for every threshold; and every
constant array has standard deviation exactly zero. -/
theorem detect_outliers_zscore_zero_std (values : List ℚ) (threshold : ℚ)
    (h : listStd values = 0) :
    detect_outliers_zscore values threshold = values.map (fun _ => false)
      ∧ ∀ (c : ℚ) (n : ℕ), listStd (List.replicate n c) = 0 := by
  refine ⟨?_, fun c n => listStd_replicate n c⟩
  rw [detect_outliers_zscore, if_pos h]

theorem detect_outliers_zscore_zero_std_witness :
    listStd [1, 1, 1, 1] = 0
      ∧ (detect_outliers_zscore [1, 1, 1, 1] 3 = ([1, 1, 1, 1] : List ℚ).map (fun _ => false)
        ∧ ∀ (c : ℚ) (n : ℕ), listStd (List.replicate n c) = 0) := by
  have hstd : listStd ([1, 1, 1, 1] : List ℚ) = 0 := by
    have hv : listVar ([1, 1, 1, 1] : List ℚ) = 0 := by norm_num [listVar, listMean]
    rw [listStd, hv]
    simp
  exact ⟨hstd, detect_outliers_zscore_zero_std [1, 1, 1, 1] 3 hstd⟩

lemma mem_dedupOnAux {α β : Type*} {key : α → β} [DecidableEq β]
    {seen : List β} {l : List α} {a : α}
    (h : a ∈ dedupOnAux key seen l) : a ∈ l ∧ key a ∉ seen := by
  induction l generalizing seen with
  | nil => simp [dedupOnAux] at h
  | cons c t ih =>
    rw [dedupOnAux] at h
    by_cases hc : key c ∈ seen
    · rw [if_pos hc] at h
      obtain ⟨h1, h2⟩ := ih h
      exact ⟨List.mem_cons_of_mem _ h1, h2⟩
    · rw [if_neg hc] at h
      rcases List.mem_cons.mp h with rfl | h
      · exact ⟨List.mem_cons_self _ _, hc⟩
      · obtain ⟨h1, h2⟩ := ih h
        refine ⟨List.mem_cons_of_mem _ h1, fun hs => h2 (List.mem_cons_of_mem _ hs)⟩

lemma dedupOnAux_pairwise {α β : Type*} (key : α → β) [DecidableEq β]
    (seen : List β) (l : List α) :
    (dedupOnAux key seen l).Pairwise (fun a b => key a ≠ key b) := by
  induction l generalizing seen with
  | nil => simp [dedupOnAux]
  | cons c t ih =>
    rw [dedupOnAux]
    by_cases hc : key c ∈ seen
    · rw [if_pos hc]
      exact ih seen
    · rw [if_neg hc]
      refine List.Pairwise.cons ?_ (ih (key c :: seen))
      intro b hb he
      exact (mem_dedupOnAux hb).2 (by rw [← he]; exact List.mem_cons_self _ _)

lemma dedupOnAux_first {α β : Type*} (key : α → β) [DecidableEq β]
    {seen : List β} {l : List α} {a : α}
    (h : a ∈ dedupOnAux key seen l) :
    ∃ l1 l2, l = l1 ++ a :: l2 ∧ ∀ b ∈ l1, key b ≠ key a := by
  induction l generalizing seen with
  | nil => simp [dedupOnAux] at h
  | cons c t ih =>
    rw [dedupOnAux] at h
    by_cases hc : key c ∈ seen
    · rw [if_pos hc] at h
      have hka : key a ∉ seen := (mem_dedupOnAux h).2
      obtain ⟨l1, l2, rfl, hl1⟩ := ih h
      refine ⟨c :: l1, l2, rfl, ?_⟩
      intro b hb
      rcases List.mem_cons.mp hb with rfl | hb
      · exact fun he => hka (he ▸ hc)
      · exact hl1 b hb
    · rw [if_neg hc] at h
      rcases List.mem_cons.mp h with rfl | h
      · exact ⟨[], t, rfl, by simp⟩
      · have hka : key a ∉ key c :: seen := (mem_dedupOnAux h).2
        obtain ⟨l1, l2, rfl, hl1⟩ := ih h
        refine ⟨c :: l1, l2, rfl, ?_⟩
        intro b hb
        rcases List.mem_cons.mp hb with rfl | hb
        · exact fun he => hka (by rw [he]; exact List.mem_cons_self _ _)
        · exact hl1 b hb

lemma validTimes_spec {r : ParsedTrip} (h : validTimes r = true) :
    ∃ s e, r.start_time = some s ∧ r.end_time = some e ∧ s ≤ e := by
  rcases hs : r.start_time with _ | s <;> rcases he : r.end_time with _ | e <;>
    simp [validTimes, hs, he] at h ⊢
  exact h

/-- Every cleaned row is the image, under fill and normalisation, of a parsed
row of the deduplicated table that passes the step-5 time filter. -/
lemma cleanTrips_mem_elim {pdate : String → Option ℕ} {pnum : String → Option ℚ}
    {rows : List RawTrip} {r : ParsedTrip}
    (hr : r ∈ cleanTrips pdate pnum rows) :
    ∃ p ∈ parseStep pdate pnum (dedupTrips rows),
      validTimes p = true
        ∧ r = normRow (fillRow (colMean (durCol pdate pnum rows))
            (colMean (distCol pdate pnum rows)) p) := by
  rw [cleanTrips, normStep] at hr
  obtain ⟨q, hq, rfl⟩ := List.mem_map.mp hr
  rw [filterStep, List.mem_filter] at hq
  obtain ⟨hqF, hqv⟩ := hq
  rw [fillStep] at hqF
  obtain ⟨p, hp, rfl⟩ := List.mem_map.mp hqF
  have hval : validTimes p = true := hqv
  exact ⟨p, hp, hval, by rw [durCol, distCol]⟩

/-- C1: the cleaned trips table has pairwise distinct trip_id values, every
retained row has successfully parsed timestamps with `end_time >= start_time`,
and each retained row is exactly the coerce-fill-normalise image of the first
raw row (in original order) carrying its trip_id — no earlier row shares that
trip_id, so the first occurrence is the one kept, a keep-last (or any other)
deduplication policy being ruled out whenever the occurrences differ. -/
theorem cleanTrips_invariants (pdate : String → Option ℕ) (pnum : String → Option ℚ)
    (rows : List RawTrip) :
    (cleanTrips pdate pnum rows).Pairwise (fun a b => a.trip_id ≠ b.trip_id)
      ∧ (∀ r ∈ cleanTrips pdate pnum rows,
          ∃ s e, r.start_time = some s ∧ r.end_time = some e ∧ s ≤ e)
      ∧ (∀ r ∈ cleanTrips pdate pnum rows,
          ∃ raw l1 l2, rows = l1 ++ raw :: l2
            ∧ (∀ b ∈ l1, b.trip_id ≠ raw.trip_id)
            ∧ r = normRow (fillRow (colMean (durCol pdate pnum rows))
                (colMean (distCol pdate pnum rows)) (parseRow pdate pnum raw))) := by
  refine ⟨?_, ?_, ?_⟩
  · have h0 : (dedupTrips rows).Pairwise (fun a b => a.trip_id ≠ b.trip_id) :=
      dedupOnAux_pairwise _ [] rows
    have h1 : (parseStep pdate pnum (dedupTrips rows)).Pairwise
        (fun a b => a.trip_id ≠ b.trip_id) := by
      rw [parseStep, List.pairwise_map]
      exact h0
    have h2 : (fillStep (parseStep pdate pnum (dedupTrips rows))).Pairwise
        (fun a b => a.trip_id ≠ b.trip_id) := by
      rw [fillStep, List.pairwise_map]
      exact h1
    have h3 : (filterStep (fillStep (parseStep pdate pnum (dedupTrips rows)))).Pairwise
        (fun a b => a.trip_id ≠ b.trip_id) :=
      List.Pairwise.sublist (List.filter_sublist _) h2
    rw [cleanTrips, normStep, List.pairwise_map]
    exact h3
  · intro r hr
    obtain ⟨p, _, hval, rfl⟩ := cleanTrips_mem_elim hr
    exact validTimes_spec hval
  · intro r hr
    obtain ⟨p, hp, _, rfl⟩ := cleanTrips_mem_elim hr
    rw [parseStep] at hp
    obtain ⟨d, hd, rfl⟩ := List.mem_map.mp hp
    rw [dedupTrips, dedupOn] at hd
    obtain ⟨l1, l2, hsplit, hfirst⟩ :=
      dedupOnAux_first (fun r : RawTrip => r.trip_id) hd
    exact ⟨d, l1, l2, hsplit, hfirst, rfl⟩

/-- C8: `clean_data` errors exactly when it is invoked with no loaded trips
table; on any loaded table — malformed cells included, which the coercions
send to null — it returns the cleaned table and raises nothing. -/
theorem clean_data_raises_iff_not_loaded (pdate : String → Option ℕ)
    (pnum : String → Option ℚ) (trips : Option (List RawTrip)) :
    ((∃ e, clean_data pdate pnum trips = Except.error e) ↔ trips = none)
      ∧ ∀ rows, trips = some rows →
          clean_data pdate pnum trips = Except.ok (cleanTrips pdate pnum rows) := by
  cases trips with
  | none =>
    refine ⟨⟨fun _ => rfl, fun _ => ⟨"Call load_data() first", rfl⟩⟩, ?_⟩
    intro rows h
    cases h
  | some rows =>
    refine ⟨⟨?_, ?_⟩, ?_⟩
    · rintro ⟨e, he⟩
      simp [clean_data] at he
    · intro h
      cases h
    · rintro rows' h
      cases h
      rfl

/-- C9: `peak_usage_hours` returns the trip count grouped by the hour of day
(0–23) extracted from start_time, in strictly ascending hour order: each
result row pairs an observed hour with its exact positive trip count, every
trip's hour is represented, and the empty table yields the empty aggregation
rather than an error. -/
theorem peak_usage_hours_spec (rows : List ParsedTrip) :
    (peak_usage_hours rows).Pairwise (fun a b => a.1 < b.1)
      ∧ (∀ p ∈ peak_usage_hours rows,
          p.1 < 24 ∧ p.2 = (hoursOf rows).count p.1 ∧ 0 < p.2)
      ∧ (∀ r ∈ rows, ∀ t, r.start_time = some t →
          (hourOf t, (hoursOf rows).count (hourOf t)) ∈ peak_usage_hours rows)
      ∧ peak_usage_hours [] = ([] : List (ℕ × ℕ)) := by
  have hperm := List.perm_insertionSort (· ≤ ·) (hoursOf rows).dedup
  have hsort := List.sorted_insertionSort (· ≤ ·) (hoursOf rows).dedup
  have hnodup : (((hoursOf rows).dedup).insertionSort (· ≤ ·)).Nodup :=
    hperm.nodup_iff.mpr (List.nodup_dedup _)
  have hmemL : ∀ {h : ℕ},
      h ∈ ((hoursOf rows).dedup).insertionSort (· ≤ ·) ↔ h ∈ hoursOf rows := by
    intro h
    rw [hperm.mem_iff, List.mem_dedup]
  have hlt24 : ∀ {h : ℕ}, h ∈ hoursOf rows → h < 24 := by
    intro h hh
    obtain ⟨r, _, hr⟩ := List.mem_filterMap.mp hh
    rcases hs : r.start_time with _ | t
    · rw [hs] at hr
      cases hr
    · rw [hs] at hr
      obtain rfl : hourOf t = h := by simpa using hr
      exact Nat.mod_lt _ (by norm_num)
  refine ⟨?_, ?_, ?_, rfl⟩
  · rw [peak_usage_hours, List.pairwise_map]
    exact (hsort.and hnodup).imp (fun hab => lt_of_le_of_ne hab.1 hab.2)
  · intro p hp
    rw [peak_usage_hours] at hp
    obtain ⟨h, hh, rfl⟩ := List.mem_map.mp hp
    have hmem : h ∈ hoursOf rows := hmemL.mp hh
    exact ⟨hlt24 hmem, rfl, List.count_pos_iff.mpr hmem⟩
  · intro r hr t ht
    have hmem : hourOf t ∈ hoursOf rows :=
      List.mem_filterMap.mpr ⟨r, hr, by rw [ht]; rfl⟩
    rw [peak_usage_hours]
    exact List.mem_map.mpr ⟨hourOf t, hmemL.mpr hmem, rfl⟩

/-- C2 counterexample: on a table whose duration and distance cells are all
null, the fill value — the mean of an empty set of values — is itself null,
`fillna` changes nothing, and the retained row still carries null
duration_minutes and distance_km after `clean_data`. -/
theorem cleanTrips_allNull_counterexample :
    (cleanTrips pdate0 pnum0 [rowNullNums]).map
        (fun r => (r.duration_minutes, r.distance_km)) = [(none, none)]
      ∧ (cleanTrips pdate0 pnum0 [rowNullNums]).length = 1 := by
  exact ⟨rfl, rfl⟩

lemma fillna_ne_none {m v : Option ℚ} (hm : m ≠ none) : fillna m v ≠ none := by
  cases v with
  | none => exact hm
  | some x => simp [fillna]

/-- C2 (amended): provided the duration column and the distance column each
contain at least one non-null value at fill time (so their means are
defined), every row retained by `clean_data` has non-null duration_minutes
and distance_km — a cell that failed numeric coercion became null and was
replaced by its column's fill-time mean. -/
theorem cleanTrips_fill_nonnull (pdate : String → Option ℕ)
    (pnum : String → Option ℚ) (rows : List RawTrip)
    (hd : colMean (durCol pdate pnum rows) ≠ none)
    (hk : colMean (distCol pdate pnum rows) ≠ none) :
    ∀ r ∈ cleanTrips pdate pnum rows,
      r.duration_minutes ≠ none ∧ r.distance_km ≠ none := by
  intro r hr
  obtain ⟨p, _, _, rfl⟩ := cleanTrips_mem_elim hr
  exact ⟨fillna_ne_none hd, fillna_ne_none hk⟩

theorem cleanTrips_fill_nonnull_witness :
    (colMean (durCol pdate0 pnum0 tableA) ≠ none
        ∧ colMean (distCol pdate0 pnum0 tableA) ≠ none)
      ∧ ∀ r ∈ cleanTrips pdate0 pnum0 tableA,
          r.duration_minutes ≠ none ∧ r.distance_km ≠ none :=
  ⟨⟨by decide, by decide⟩,
    cleanTrips_fill_nonnull pdate0 pnum0 tableA (by decide) (by decide)⟩

lemma cleanTrips_tableA_durations :
    (cleanTrips pdate0 pnum0 tableA).map (fun r => r.duration_minutes) = [some 10] := by
  have hTT : (("T60" : String) = "T0") = False := by simp
  have hb1 : (("bad" : String) = "T0") = False := by simp
  have hb2 : (("bad" : String) = "T60") = False := by simp
  have hba : (("b" : String) = "a") = False := by simp
  have h51 : (("5" : String) = "10") = False := by simp
  have h53 : (("5" : String) = "30") = False := by simp
  have h31 : (("30" : String) = "10") = False := by simp
  norm_num [cleanTrips, normStep, filterStep, fillStep, parseStep, dedupTrips, dedupOn,
    dedupOnAux, parseRow, normRow, fillRow, fillna, colMean, validTimes,
    pdate0, pnum0, tableA, rowKept, rowDropped, hTT, hb1, hb2, hba, h51, h53, h31,
    List.filterMap_cons, List.filterMap_nil]

lemma cleanTrips_tableB_durations :
    (cleanTrips pdate0 pnum0 tableB).map (fun r => r.duration_minutes) = [some 30] := by
  have hTT : (("T60" : String) = "T0") = False := by simp
  have hb1 : (("bad" : String) = "T0") = False := by simp
  have hb2 : (("bad" : String) = "T60") = False := by simp
  have hba : (("b" : String) = "a") = False := by simp
  have h51 : (("5" : String) = "10") = False := by simp
  have h53 : (("5" : String) = "30") = False := by simp
  have h31 : (("30" : String) = "10") = False := by simp
  norm_num [cleanTrips, normStep, filterStep, fillStep, parseStep, dedupTrips, dedupOn,
    dedupOnAux, parseRow, normRow, fillRow, fillna, colMean, validTimes,
    pdate0, pnum0, tableB, rowKept, rowDropped, hTT, hb1, hb2, hba, h51, h53, h31,
    List.filterMap_cons, List.filterMap_nil]

/-- C3: the fill means are computed before the step-5 invalid-row filter — a
retained row whose duration and distance cells were null receives exactly the
means of the whole post-coercion columns, rows that step 5 subsequently drops
included; concretely, `tableA` and `tableB` differ only in the duration of a
row that step 5 drops, yet they clean to different retained durations (the
dropped row's value: 10 vs 30). -/
theorem fill_mean_before_drop (pdate : String → Option ℕ)
    (pnum : String → Option ℚ) (rows : List RawTrip) (p : ParsedTrip)
    (hp : p ∈ parseStep pdate pnum (dedupTrips rows))
    (hv : validTimes p = true)
    (hd : p.duration_minutes = none) (hk : p.distance_km = none) :
    (∃ r ∈ cleanTrips pdate pnum rows,
        r.duration_minutes = colMean (durCol pdate pnum rows)
          ∧ r.distance_km = colMean (distCol pdate pnum rows))
      ∧ (cleanTrips pdate0 pnum0 tableA).map (fun r => r.duration_minutes)
          = [some 10]
      ∧ (cleanTrips pdate0 pnum0 tableB).map (fun r => r.duration_minutes)
          = [some 30] := by
  refine ⟨?_, cleanTrips_tableA_durations, cleanTrips_tableB_durations⟩
  refine ⟨normRow (fillRow (colMean (durCol pdate pnum rows))
      (colMean (distCol pdate pnum rows)) p), ?_, ?_, ?_⟩
  · rw [cleanTrips, normStep]
    refine List.mem_map_of_mem _ ?_
    rw [filterStep, List.mem_filter]
    constructor
    · rw [fillStep, durCol, distCol] at *
      exact List.mem_map_of_mem _ hp
    · exact hv
  · show fillna _ p.duration_minutes = _
    rw [hd]
    rfl
  · show fillna _ p.distance_km = _
    rw [hk]
    rfl

theorem fill_mean_before_drop_witness :
    (parseRow pdate0 pnum0 rowNullNums ∈ parseStep pdate0 pnum0 (dedupTrips tableC)
        ∧ validTimes (parseRow pdate0 pnum0 rowNullNums) = true
        ∧ (parseRow pdate0 pnum0 rowNullNums).duration_minutes = none
        ∧ (parseRow pdate0 pnum0 rowNullNums).distance_km = none)
      ∧ ((∃ r ∈ cleanTrips pdate0 pnum0 tableC,
            r.duration_minutes = colMean (durCol pdate0 pnum0 tableC)
              ∧ r.distance_km = colMean (distCol pdate0 pnum0 tableC))
        ∧ (cleanTrips pdate0 pnum0 tableA).map (fun r => r.duration_minutes)
            = [some 10]
        ∧ (cleanTrips pdate0 pnum0 tableB).map (fun r => r.duration_minutes)
            = [some 30]) :=
  ⟨⟨by decide, by decide, by decide, by decide⟩,
    fill_mean_before_drop pdate0 pnum0 tableC (parseRow pdate0 pnum0 rowNullNums)
      (by decide) (by decide) (by decide) (by decide)⟩

/-- C7: the station distance matrix is symmetric, has zero diagonal, and its
`(i, j)` entry is `sqrt((lat_i - lat_j)^2 + (lon_i - lon_j)^2)`. -/
theorem station_distance_matrix_symm_diag (n : ℕ) (lats lons : Fin n → ℝ) (i j : Fin n) :
    station_distance_matrix n lats lons i j = station_distance_matrix n lats lons j i
      ∧ station_distance_matrix n lats lons i i = 0
      ∧ station_distance_matrix n lats lons i j
          = Real.sqrt ((lats i - lats j) ^ 2 + (lons i - lons j) ^ 2) := by
  refine ⟨?_, ?_, rfl⟩
  · show Real.sqrt _ = Real.sqrt _
    congr 1
    ring
  · simp [station_distance_matrix]

theorem calculate_fares_broadcast_witness :
    (([10] : List ℚ).length = 1 ∧ 1 < ([1, 2, 3] : List ℚ).length)
      ∧ (calculate_fares [10] [1, 2, 3] (15/100) (10/100) 1
          = some (([1, 2, 3] : List ℚ).map
              (fun k => 1 + 15/100 * ([10] : List ℚ).head! + 10/100 * k))
        ∧ calculate_fares [1, 2, 3] [10] (15/100) (10/100) 1
          = some (([1, 2, 3] : List ℚ).map
              (fun k => 1 + 15/100 * k + 10/100 * ([10] : List ℚ).head!))
        ∧ (calculate_fares [10] [1, 2, 3] (15/100) (10/100) 1).map List.length
          = some ([1, 2, 3] : List ℚ).length) :=
  ⟨⟨by decide, by decide⟩,
    calculate_fares_broadcast [10] [1, 2, 3] (by decide) (by decide) (15/100) (10/100) 1⟩

end CityBike
